import Mathlib

/-!
# Verification of the bsclient BetaSeries web-client library

Shallow embedding of the request-building and response-handling logic of the
`bsclient` Go package (files `betaseries.go` (part_000), `shows.go`,
`episodes.go` (part_001)).  Pure request builders are embedded as Lean
functions from the caller arguments to either a local error or the
`(method, path, query)` triple that would be sent; the HTTP round trip itself
is external, so response handling is embedded as functions from the decoded
response data to the function's result.  Go `int` is modelled as `Int`,
Go maps of query values as association lists (only `Set` is ever used, and
`url.Values.Encode` sorts by key).
-/

/-- A JSON value, used for the modelled response bodies and for fields the
Go code declares as `[]interface{}`.  Numeric literals appearing in the
modelled bodies are integers. -/
inductive Json where
  | null : Json
  | bool (b : Bool) : Json
  | num (n : Int) : Json
  | str (s : String) : Json
  | arr (xs : List Json) : Json
  | obj (fields : List (String × Json)) : Json

/-- Query parameters, in insertion order.  Models Go's `url.Values` as used
by this library: every parameter is written with `Set`, so each key holds a
single value. -/
abbrev Values := List (String × String)

/-- Embeds `url.Values.Set`: replace the value under the key, or append. -/
def vset : Values → String → String → Values
  | [], k, v => [(k, v)]
  | (k0, v0) :: t, k, v =>
      if k0 = k then (k, v) :: t else (k0, v0) :: vset t k v

/-- Look a parameter up in the emitted query (Go `url.Values.Get`,
with `none` for an absent key). -/
def vget : Values → String → Option String
  | [], _ => none
  | (k0, v0) :: t, k => if k0 = k then some v0 else vget t k

theorem vget_vset_self (q : Values) (k v : String) :
    vget (vset q k v) k = some v := by
  induction q with
  | nil => simp [vset, vget]
  | cons p t ih =>
      by_cases h : p.1 = k
      · simp [vset, vget, h]
      · simp [vset, vget, h, ih]

theorem vget_vset_ne (q : Values) (k v k' : String) (h : k ≠ k') :
    vget (vset q k v) k' = vget q k' := by
  induction q with
  | nil => simp [vset, vget, h]
  | cons p t ih =>
      by_cases h0 : p.1 = k
      · simp [vset, vget, h0, h]
      · simp [vset, vget, h0, ih]

/-- ASCII fragment of Go's `url.QueryEscape` (all parameters this library
emits are ASCII): unreserved characters pass through, a space becomes `+`,
anything else is percent-encoded. -/
def qescChar (c : Char) : String :=
  if c.isAlphanum || c = '-' || c = '_' || c = '.' || c = '~' then
    String.singleton c
  else if c = ' ' then "+"
  else
    let n := c.toNat % 256
    let hx := fun (d : Nat) => if d < 10 then Char.ofNat (48 + d) else Char.ofNat (55 + d)
    String.singleton '%' ++ String.singleton (hx (n / 16)) ++ String.singleton (hx (n % 16))

def qesc (s : String) : String :=
  String.join (s.data.map qescChar)

/-- Lexicographic comparison on character lists (Go's `sort.Strings` is
byte-wise; the keys are ASCII, where the two orders agree). -/
def charListLt : List Char → List Char → Bool
  | [], [] => false
  | [], _ :: _ => true
  | _ :: _, [] => false
  | a :: as, b :: bs =>
      if a.toNat < b.toNat then true
      else if b.toNat < a.toNat then false
      else charListLt as bs

def strLt (a b : String) : Bool :=
  charListLt a.data b.data

/-- Insertion step for sorting query keys (Go's `Encode` sorts by key). -/
def insertByKey (p : String × String) : Values → Values
  | [] => [p]
  | q :: t => if strLt q.1 p.1 then q :: insertByKey p t else p :: q :: t

def sortByKey : Values → Values
  | [] => []
  | p :: t => insertByKey p (sortByKey t)

/-- Embeds `url.Values.Encode`: keys sorted, each pair escaped and joined
with `&`. -/
def encodeValues (q : Values) : String :=
  String.intercalate "&" ((sortByKey q).map (fun p => qesc p.1 ++ "=" ++ qesc p.2))

/-! ## Error values (shows.go lines 10-17; goErr models `fmt.Errorf` strings,
apiErr the service-error envelope).  `errNoEpisodesFound` is declared in
`episodes.go`, which is not under src/; it is modelled from the spec
(§4.3/§7: a distinct "no episodes found" value). -/

inductive BsError where
  | errNoShowsFound
  | errNoCharactersFound
  | errNoVideosFound
  | errNoEpisodesFound
  | errNoSingleIDUsed
  | errIDNotProperlySet
  | errInvalidNote
  | errURLParsing
  | apiErr (msgs : List (Int × String))
  | goErr (msg : String)
deriving DecidableEq, Repr

/-- Outcome of a Go code path that may return normally, return an error, or
terminate the whole process through `log.Fatalf`. -/
inductive GoOutcome (α : Type) where
  | ok (a : α) : GoOutcome α
  | err (msg : String) : GoOutcome α
  | fatal (msg : String) : GoOutcome α

/-! ## Domain records (shows.go) -/

structure seasonDetails where
  Number : Int := 0
  Episodes : Int := 0

/-- Modelled from the spec: the `Episode` domain record lives in
`episodes.go`, which is not under src/.  Per §3 it is a flat structure
mirroring service fields (identifiers and descriptive data); only its
presence or absence, and its identifier, matter to the claims. -/
structure Episode where
  ID : Int := 0
  ShowID : Int := 0
  Title : String := ""

structure showNotes where
  Total : Int := 0
  Mean : Rat := 0
  User : Int := 0

structure showImages where
  Show : String := ""
  Banner : String := ""
  Box : String := ""
  Poster : String := ""

structure showUser where
  Archived : Bool := false
  Favorited : Bool := false
  Remaining : Int := 0
  Status : Rat := 0
  Last : String := ""
  Tags : String := ""

/-- The `Show` record (shows.go lines 25-72).  The two floating-point fields
(`Notes.Mean`, `User.Status`) are modelled as rationals. -/
structure Show where
  ID : Int := 0
  ThetvdbID : Int := 0
  ImdbID : String := ""
  Title : String := ""
  Description : String := ""
  Seasons : String := ""
  SeasonsDetails : List seasonDetails := []
  Episodes : String := ""
  Followers : String := ""
  Comments : String := ""
  Similars : String := ""
  Characters : String := ""
  Creation : String := ""
  Genres : List String := []
  Length : String := ""
  Network : String := ""
  Rating : String := ""
  Status : String := ""
  Language : String := ""
  Notes : showNotes := {}
  InAccount : Bool := false
  Images : showImages := {}
  Aliases : List String := []
  User : showUser := {}
  ResourceURL : String := ""
  Remaining : Int := 0
  Unseen : List Episode := []

/-- Envelope for show collections (shows.go lines 74-77). -/
structure shows where
  Shows : List Show := []
  Errors : List Json := []

/-- Envelope for single-show endpoints (shows.go lines 79-82): the payload
is optional. -/
structure showItem where
  Show : Option Show := none
  Errors : List Json := []

structure Similar where
  ID : Int := 0
  Login : String := ""
  LoginID : Int := 0
  Notes : String := ""
  ShowTitle : String := ""
  ShowID : Int := 0
  ThetvdbID : Int := 0
  Show : Show := {}

structure similars where
  Similars : List Similar := []
  Errors : List Json := []

structure Character where
  ID : Int := 0
  ShowID : Int := 0
  Name : String := ""
  Role : String := ""
  Actor : String := ""
  Picture : String := ""
  Description : String := ""

structure characters where
  Characters : List Character := []

structure Video where
  ID : Int := 0
  ShowID : Int := 0
  YoutubeID : String := ""
  YoutubeURL : String := ""
  Title : String := ""
  Season : Int := 0
  Episode : Int := 0
  Login : String := ""
  LoginID : Int := 0

structure videos where
  Videos : List Video := []
  Errors : List Json := []

/-- Envelope for single-episode endpoints (episodes.go, part_001 lines 8-11). -/
structure episodeItem where
  Episode : Option Episode := none
  Errors : List Json := []

/-- Modelled from the spec: the episode-collection envelope used by
`doGetEpisodes` (episodes.go, not under src/); per §4.3 a named collection
field plus an error list. -/
structure episodes where
  Episodes : List Episode := []
  Errors : List Json := []

/-! ## Session and authentication (betaseries.go = part_000) -/

def bsBaseURL : String := "https://api.betaseries.com"

def bsVersion : String := "2.4"

structure errAPIItem where
  Code : Int := 0
  Text : String := ""

structure errAPI where
  Errors : List errAPIItem := []

/-- Embeds `errAPI.Error()` (part_000 lines 28-34): the texts, each followed
by a newline, concatenated. -/
def errAPIError (e : errAPI) : String :=
  String.join (e.Errors.map (fun it => it.Text ++ "\n"))

structure tokenUser where
  ID : Int := 0
  Login : String := ""
  InAccount : Bool := false

structure token where
  User : tokenUser := {}
  Token : String := ""
  Hash : String := ""
  Errors : List Json := []

/-- The web client (part_000 lines 49-54). -/
structure BetaSeries where
  baseURL : String
  version : String
  key : String
  token : Option token := none

/-- Embeds `decodeErr` (part_000 lines 87-93).  Its argument is the outcome
of `json.Decoder.Decode` on the response body: `some e` when the body parsed
into an `errAPI`, `none` when it did not.  On a parse failure the Go code
calls `log.Fatalf`, terminating the process. -/
def decodeErr (parsed : Option errAPI) : GoOutcome errAPI :=
  match parsed with
  | some e => GoOutcome.ok e
  | none => GoOutcome.fatal "Error decoding API error"

/-- Embeds the guard of `retrieveToken` (part_000 lines 96-98): with an
empty login or an empty password the function returns immediately, before
any request is built. -/
def retrieveTokenSkipsAuth (login password : String) : Bool :=
  login.length == 0 || password.length == 0

/-- Embeds `NewBetaseriesClient` (part_000 lines 63-74) on the paths that
need no network: `some (client, err)` when `retrieveToken` returns without
performing a credential exchange, `none` on the branch that sends the
exchange request (an external HTTP effect outside the pure model). -/
def NewBetaseriesClientNoAuth (key login password : String) :
    Option (BetaSeries × Option String) :=
  if retrieveTokenSkipsAuth login password then
    some ({ baseURL := bsBaseURL, version := bsVersion, key := key, token := none }, none)
  else none

/-- Embeds the response handling of `retrieveToken` (part_000 lines
114-128): on a non-OK status the body is decoded by `decodeErr` into a
service error; on an OK status the body is decoded into a `token`.  The two
`Option` arguments are the respective `json.Decode` outcomes for the body. -/
def retrieveTokenRespond (statusOK : Bool) (errBody : Option errAPI)
    (tokenBody : Option token) : GoOutcome (Option token) :=
  if statusOK then
    match tokenBody with
    | some t => GoOutcome.ok (some t)
    | none => GoOutcome.err "Error decoding token response"
  else
    match decodeErr errBody with
    | GoOutcome.ok e => GoOutcome.err (errAPIError e)
    | GoOutcome.err m => GoOutcome.err m
    | GoOutcome.fatal m => GoOutcome.fatal m

/-! ## Request builders (shows.go, part_001).  Each embeds the URL/query
construction of the corresponding Go function up to the HTTP call: the
result is either the local error the Go function returns before any network
request, or the `(method, path, query)` triple it sends. -/

/-- Request to send, as built by a Go endpoint function. -/
abbrev Request := String × String × Values

/-- ASCII model of Go's `strings.ToLower`. -/
def goToLower (s : String) : String :=
  String.mk (s.data.map Char.toLower)

/-- Embeds the query building of `ShowsSearch` (shows.go lines 144-165). -/
def ShowsSearch (query order : String) (summary : Bool) : Request :=
  let q := vset [] "title" (goToLower query)
  let q := vset q "nbpp" "100"
  let q :=
    if order = "title" ∨ order = "popularity" ∨ order = "followers" then
      vset q "order" order
    else vset q "order" "popularity"
  let q := if summary then vset q "summary" "true" else q
  ("GET", "/shows/search", q)

/-- Embeds the query building of `ShowsRandom` (shows.go lines 169-185);
note the guard `num >= 0`. -/
def ShowsRandom (num : Int) (summary : Bool) : Request :=
  let q : Values := []
  let q := if num ≥ 0 then vset q "nb" (toString num) else q
  let q := if summary then vset q "summary" "true" else q
  ("GET", "/shows/random", q)

/-- Embeds the query building of `ShowsFavorites` (shows.go lines 189-202). -/
def ShowsFavorites (userID : Int) : Request :=
  let q : Values := []
  let q := if userID > 0 then vset q "id" (toString userID) else q
  ("GET", "/shows/favorites", q)

/-- Embeds the option switch of `showUpdate` (shows.go lines 340-347):
for a positive option, endpoint "note" adds a `note` parameter and endpoint
"show" an `episode_id` parameter. -/
def optionParams (endPoint : String) (option : Int) (q : Values) : Values :=
  if option > 0 then
    if endPoint = "note" then vset q "note" (toString option)
    else if endPoint = "show" then vset q "episode_id" (toString option)
    else q
  else q

/-- Embeds the request building of `showUpdate` (shows.go lines 324-348):
local ID first, then the external ID, then the IMDB string ID, else the
`id not properly set` error before any request. -/
def showUpdate (method endPoint : String) (id theTvdbID : Int)
    (imdbID : String) (option : Int) : Except BsError Request :=
  if id > 0 then
    Except.ok (method, "/shows/" ++ endPoint, optionParams endPoint option (vset [] "id" (toString id)))
  else if theTvdbID > 0 then
    Except.ok (method, "/shows/" ++ endPoint, optionParams endPoint option (vset [] "thetvdb_id" (toString theTvdbID)))
  else if imdbID ≠ "" then
    Except.ok (method, "/shows/" ++ endPoint, optionParams endPoint option (vset [] "imdb_id" imdbID))
  else Except.error BsError.errIDNotProperlySet

/-- Embeds `ShowNote` (shows.go lines 519-524): the range check precedes
the `showUpdate` call. -/
def ShowNote (bsID theTvdbID note : Int) : Except BsError Request :=
  if note < 1 ∨ note > 5 then Except.error BsError.errInvalidNote
  else showUpdate "POST" "note" bsID theTvdbID "" note

/-- Embeds the request building of `ShowsSimilars` (shows.go lines
215-235). -/
def ShowsSimilars (id theTvdbID : Int) (details : Bool) : Except BsError Request :=
  let fin := fun (q : Values) =>
    Except.ok ("GET", "/shows/similars", if details then vset q "details" "true" else q)
  if id > 0 then fin (vset [] "id" (toString id))
  else if theTvdbID > 0 then fin (vset [] "thetvdb_id" (toString theTvdbID))
  else Except.error BsError.errIDNotProperlySet

/-- Embeds the request building of `ShowsCharacters` (shows.go lines
253-267). -/
def ShowsCharacters (id theTvdbID : Int) : Except BsError Request :=
  if id > 0 then Except.ok ("GET", "/shows/characters", vset [] "id" (toString id))
  else if theTvdbID > 0 then
    Except.ok ("GET", "/shows/characters", vset [] "thetvdb_id" (toString theTvdbID))
  else Except.error BsError.errIDNotProperlySet

/-- Embeds the request building of `ShowsVideos` (shows.go lines 413-429):
both identifiers positive is rejected first; the external-ID branch writes
the parameter name `"thetvdb_id "`, with a trailing space, exactly as the
source does on line 425. -/
def ShowsVideos (id tvdbID : Int) : Except BsError Request :=
  if id > 0 ∧ tvdbID > 0 then Except.error BsError.errNoSingleIDUsed
  else if id > 0 then Except.ok ("GET", "/shows/videos", vset [] "id" (toString id))
  else if tvdbID > 0 then
    Except.ok ("GET", "/shows/videos", vset [] "thetvdb_id " (toString tvdbID))
  else Except.error BsError.errIDNotProperlySet

/-- Embeds the request building of `ShowsEpisodes` (shows.go lines
452-477). -/
def ShowsEpisodes (id theTvdbID season episode : Int) (subtitles : Bool) :
    Except BsError Request :=
  let fin := fun (q : Values) =>
    let q := if season > 0 then
        (let q := vset q "season" (toString season)
         if episode > 0 then vset q "episode" (toString episode) else q)
      else q
    let q := if subtitles then vset q "subtitles" "true" else q
    Except.ok ("GET", "/shows/episodes", q)
  if id > 0 then fin (vset [] "id" (toString id))
  else if theTvdbID > 0 then fin (vset [] "thetvdb_id" (toString theTvdbID))
  else Except.error BsError.errIDNotProperlySet

/-- Embeds the query building of `EpisodesList` (shows.go lines 480-516);
note `released >= 0` against the strict guards of the other numeric
options. -/
def EpisodesList (showID theTvdbID : Int) (imdbID : String)
    (userID limit released : Int) (subtitles specials : Bool) : Request :=
  let q : Values := []
  let q := if specials then vset q "specials" "true" else q
  let q := if subtitles then vset q "subtitles" "true" else q
  let q := if released ≥ 0 then vset q "released" (toString released) else q
  let q := if showID > 0 then vset q "showId" (toString showID) else q
  let q := if theTvdbID > 0 then vset q "showTheTVDBId" (toString theTvdbID) else q
  let q := if imdbID ≠ "" then vset q "showIMDBId" imdbID else q
  let q := if limit > 0 then vset q "limit" (toString limit) else q
  let q := if userID > 0 then vset q "userId" (toString userID) else q
  ("GET", "/episodes/list", q)

/-- Embeds the query building of the `EpisodesList` variant of part_001
(lines 14-30), whose numeric guards are `>= 0`. -/
def EpisodesListAlt (showID userID : Int) : Request :=
  let q : Values := []
  let q := if showID ≥ 0 then vset q "showId" (toString showID) else q
  let q := if userID ≥ 0 then vset q "userId" (toString userID) else q
  ("GET", "/episodes/list", q)

/-- Embeds the query building of `episodeUpdate` (part_001 lines 32-40). -/
def episodeUpdateReq (method : String) (id : Int) : Request :=
  (method, "/episodes/downloaded", vset [] "id" (toString id))

/-! ## Response handling after a successful decode (the `bs.decode` method
itself is not under src/; these functions embed the lines that follow it). -/

/-- Embeds the post-decode check of `doGetShows` (shows.go lines 115-119). -/
def doGetShowsPost (data : shows) : Except BsError (List Show) :=
  if data.Shows.length < 1 then Except.error BsError.errNoShowsFound
  else Except.ok data.Shows

/-- Embeds the post-decode check of `doGetSimilars` (shows.go lines
135-139): an empty similars collection yields `errNoShowsFound`. -/
def doGetSimilarsPost (data : similars) : Except BsError (List Similar) :=
  if data.Similars.length < 1 then Except.error BsError.errNoShowsFound
  else Except.ok data.Similars

/-- Embeds the post-decode check of `ShowsCharacters` (shows.go lines
281-285). -/
def showsCharactersPost (data : characters) : Except BsError (List Character) :=
  if data.Characters.length < 1 then Except.error BsError.errNoCharactersFound
  else Except.ok data.Characters

/-- Embeds the post-decode check of `ShowsVideos` (shows.go lines 443-447). -/
def showsVideosPost (data : videos) : Except BsError (List Video) :=
  if data.Videos.length < 1 then Except.error BsError.errNoVideosFound
  else Except.ok data.Videos

/-- Modelled from the spec: the post-decode check of `doGetEpisodes`
(episodes.go, not under src/); per §4.3/§7 an empty episode collection
yields the distinct no-episodes-found error. -/
def doGetEpisodesPost (data : episodes) : Except BsError (List Episode) :=
  if data.Episodes.length < 1 then Except.error BsError.errNoEpisodesFound
  else Except.ok data.Episodes

/-- Embeds the tail of `showUpdate` (shows.go lines 356-362): after a
successful decode the optional payload is returned as is, with no error. -/
def showUpdatePost (item : showItem) : Except BsError (Option Show) :=
  Except.ok item.Show

/-- Embeds the tail of `episodeUpdate` (part_001 lines 48-54): after a
successful decode the optional payload is returned as is, with no error. -/
def episodeUpdatePost (item : episodeItem) : Except BsError (Option Episode) :=
  Except.ok item.Episode

/-! ## JSON decoding of the shows envelope.  The `bs.decode` method is not
under src/; the functions below are modelled from the spec (§4.3): the body
is parsed into the envelope shape, a non-empty embedded error list fails
with the service error, and absent fields are zero-valued (§3). -/

def jGet : List (String × Json) → String → Option Json
  | [], _ => none
  | (k, v) :: t, key => if k = key then some v else jGet t key

def jInt (fs : List (String × Json)) (k : String) : Int :=
  match jGet fs k with
  | some (Json.num n) => n
  | _ => 0

def jRat (fs : List (String × Json)) (k : String) : Rat :=
  match jGet fs k with
  | some (Json.num n) => (n : Rat)
  | _ => 0

def jStr (fs : List (String × Json)) (k : String) : String :=
  match jGet fs k with
  | some (Json.str s) => s
  | _ => ""

def jBool (fs : List (String × Json)) (k : String) : Bool :=
  match jGet fs k with
  | some (Json.bool b) => b
  | _ => false

def jArr (fs : List (String × Json)) (k : String) : List Json :=
  match jGet fs k with
  | some (Json.arr xs) => xs
  | _ => []

def jField (fs : List (String × Json)) (k : String) : Json :=
  (jGet fs k).getD Json.null

def jStrList (fs : List (String × Json)) (k : String) : List String :=
  (jArr fs k).map (fun j => match j with | Json.str s => s | _ => "")

/-- Modelled from the spec: unmarshalling of one `seasons_details` item. -/
def unmarshalSeasonDetails (j : Json) : seasonDetails :=
  match j with
  | Json.obj fs => { Number := jInt fs "number", Episodes := jInt fs "episodes" }
  | _ => {}

/-- Modelled from the spec: unmarshalling of one `Episode` item
(episodes.go is not under src/). -/
def unmarshalEpisode (j : Json) : Episode :=
  match j with
  | Json.obj fs => { ID := jInt fs "id", ShowID := jInt fs "show_id", Title := jStr fs "title" }
  | _ => {}

def unmarshalShowNotes (j : Json) : showNotes :=
  match j with
  | Json.obj fs => { Total := jInt fs "total", Mean := jRat fs "mean", User := jInt fs "user" }
  | _ => {}

def unmarshalShowImages (j : Json) : showImages :=
  match j with
  | Json.obj fs =>
      { Show := jStr fs "show", Banner := jStr fs "banner",
        Box := jStr fs "box", Poster := jStr fs "poster" }
  | _ => {}

def unmarshalShowUser (j : Json) : showUser :=
  match j with
  | Json.obj fs =>
      { Archived := jBool fs "archived", Favorited := jBool fs "favorited",
        Remaining := jInt fs "remaining", Status := jRat fs "status",
        Last := jStr fs "last", Tags := jStr fs "tags" }
  | _ => {}

/-- Modelled from the spec: unmarshalling of one `Show` record, field by
field from the JSON tags of shows.go lines 25-72, absent fields
zero-valued. -/
def unmarshalShow (j : Json) : Show :=
  match j with
  | Json.obj fs =>
      { ID := jInt fs "id", ThetvdbID := jInt fs "thetvdb_id",
        ImdbID := jStr fs "imdb_id", Title := jStr fs "title",
        Description := jStr fs "description", Seasons := jStr fs "seasons",
        SeasonsDetails := (jArr fs "seasons_details").map unmarshalSeasonDetails,
        Episodes := jStr fs "episodes", Followers := jStr fs "followers",
        Comments := jStr fs "comments", Similars := jStr fs "similars",
        Characters := jStr fs "characters", Creation := jStr fs "creation",
        Genres := jStrList fs "genres", Length := jStr fs "length",
        Network := jStr fs "network", Rating := jStr fs "rating",
        Status := jStr fs "status", Language := jStr fs "language",
        Notes := unmarshalShowNotes (jField fs "notes"),
        InAccount := jBool fs "in_account",
        Images := unmarshalShowImages (jField fs "images"),
        Aliases := jStrList fs "aliases",
        User := unmarshalShowUser (jField fs "user"),
        ResourceURL := jStr fs "resource_url", Remaining := jInt fs "remaining",
        Unseen := (jArr fs "unseen").map unmarshalEpisode }
  | _ => {}

def jsonErrPair (j : Json) : Int × String :=
  match j with
  | Json.obj fs => (jInt fs "code", jStr fs "text")
  | _ => (0, "")

/-- Modelled from the spec: `bs.decode` on the shows envelope (§4.3) — parse
the body into the envelope, fail with the service error when the embedded
error list is non-empty, fail with a malformed-response error when the body
is not an object. -/
def decodeShows (body : Json) : Except BsError shows :=
  match body with
  | Json.obj fs =>
      let data : shows :=
        { Shows := (jArr fs "shows").map unmarshalShow, Errors := jArr fs "errors" }
      if data.Errors.isEmpty then Except.ok data
      else Except.error (BsError.apiErr (data.Errors.map jsonErrPair))
  | _ => Except.error (BsError.goErr "malformed response")

/-- The decode-then-check pipeline of `doGetShows` (shows.go lines 102-120):
spec-modelled decoding followed by the source's empty-collection check. -/
def doGetShowsRespond (body : Json) : Except BsError (List Show) :=
  match decodeShows body with
  | Except.error e => Except.error e
  | Except.ok data => doGetShowsPost data

/-- The response body of the `ShowsSearch` scenario. -/
def c8Body : Json :=
  Json.obj [("shows", Json.arr [Json.obj [("id", Json.num 1), ("title", Json.str "Lost")]]),
            ("errors", Json.arr [])]

/-- The single `Show` that body decodes to. -/
def c8Show : Show :=
  { ID := 1, Title := "Lost" }

/-! ## Claims -/

/-- C1: the claim says that a malformed JSON body on the error path of the
credential exchange is reported to the caller as a decode error; the code
instead reaches `log.Fatalf` inside `decodeErr` and terminates the process.
This theorem evaluates the embedded response handling at the failing input
(non-success status, body that is not valid JSON): the outcome is the fatal
process exit, not a returned error. -/
theorem retrieveToken_malformed_error_body_fatal :
    retrieveTokenRespond false none none = GoOutcome.fatal "Error decoding API error" := rfl

/-- C2: the claim says single-item endpoints fail with a "missing payload"
error when the envelope decodes with no reported errors but a nil payload;
the code returns the nil payload with a nil error.  This theorem evaluates
both single-item tails at that failing input: `showUpdate` and
`episodeUpdate` each return `ok none` — an absent record and no error. -/
theorem single_item_nil_payload_no_error :
    showUpdatePost { Show := none, Errors := [] } = Except.ok none ∧
    episodeUpdatePost { Episode := none, Errors := [] } = Except.ok none :=
  ⟨rfl, rfl⟩

/-- C9: constructing a client with an empty login or an empty password
performs no credential exchange and yields a client with no token and no
error (anonymous mode). -/
theorem anonymous_client_no_auth (key login password : String)
    (h : login = "" ∨ password = "") :
    NewBetaseriesClientNoAuth key login password =
      some ({ baseURL := bsBaseURL, version := bsVersion, key := key, token := none }, none) := by
  rcases h with h | h <;> subst h <;>
    simp [NewBetaseriesClientNoAuth, retrieveTokenSkipsAuth]

/-- C9 witness: a concrete anonymous construction (empty password). -/
theorem anonymous_client_no_auth_witness :
    NewBetaseriesClientNoAuth "apikey" "user" "" =
      some ({ baseURL := bsBaseURL, version := bsVersion, key := "apikey", token := none }, none) :=
  anonymous_client_no_auth "apikey" "user" "" (Or.inr rfl)

/-- C10: for every query, `ShowsSearch` emits a `title` parameter equal to
the lowercase form of the caller-supplied query. -/
theorem showsSearch_title_lowercased (query order : String) (summary : Bool) :
    vget (ShowsSearch query order summary).2.2 "title" = some (goToLower query) := by
  by_cases ho : order = "title" ∨ order = "popularity" ∨ order = "followers" <;>
    by_cases hs : summary <;>
      simp [ShowsSearch, ho, hs, vget_vset_ne, vget_vset_self]

/-- C8 counterexample: the emitted query string of
`ShowsSearch("lost", "title", false)` is `nbpp=100&order=title&title=lost`
(Go's `url.Values.Encode` sorts by key), not the claimed literal
`title=lost&nbpp=100&order=title`. -/
theorem showsSearch_query_string_counterexample :
    encodeValues (ShowsSearch "lost" "title" false).2.2 = "nbpp=100&order=title&title=lost" ∧
    encodeValues (ShowsSearch "lost" "title" false).2.2 ≠ "title=lost&nbpp=100&order=title" := by
  exact ⟨rfl, by decide⟩

/-- C8 (amended): `ShowsSearch("lost", "title", false)` builds a GET to
`/shows/search` with parameters `title=lost`, `nbpp=100`, `order=title`,
whose encoded query string is `nbpp=100&order=title&title=lost`; the
scenario response body decodes to exactly one `Show`, whose ID is 1. -/
theorem showsSearch_scenario :
    ShowsSearch "lost" "title" false =
      ("GET", "/shows/search", [("title", "lost"), ("nbpp", "100"), ("order", "title")]) ∧
    encodeValues (ShowsSearch "lost" "title" false).2.2 = "nbpp=100&order=title&title=lost" ∧
    doGetShowsRespond c8Body = Except.ok [c8Show] ∧
    c8Show.ID = 1 :=
  ⟨rfl, rfl, rfl, rfl⟩

theorem vget_optionParams_of_ne (endPoint : String) (option : Int) (q : Values)
    (k : String) (h1 : k ≠ "note") (h2 : k ≠ "episode_id") :
    vget (optionParams endPoint option q) k = vget q k := by
  unfold optionParams
  split_ifs
  · exact vget_vset_ne _ _ _ _ (Ne.symm h1)
  · exact vget_vset_ne _ _ _ _ (Ne.symm h2)
  · rfl
  · rfl

/-- C4 counterexample: `ShowsSimilars(5, 5, false)`, with both identifiers
positive, does not fail with the "no single id used" error — it uses the
local ID, refuting the claim's "every endpoint accepting two mutually
exclusive identifiers, including ShowsSimilars". -/
theorem showsSimilars_both_ids_counterexample :
    ShowsSimilars 5 5 false = Except.ok ("GET", "/shows/similars", [("id", "5")]) ∧
    ShowsSimilars 5 5 false ≠ Except.error BsError.errNoSingleIDUsed := by
  exact ⟨rfl, fun h => nomatch h⟩

/-- C4 (amended): when both identifiers are positive, `ShowsVideos` fails
with the "no single id used" error before any request, while the other
two-identifier endpoints (`ShowsSimilars`, `ShowsCharacters`) instead use
the local ID. -/
theorem both_ids_exclusivity (id tvdb : Int) (h1 : 0 < id) (h2 : 0 < tvdb) :
    ShowsVideos id tvdb = Except.error BsError.errNoSingleIDUsed ∧
    ShowsSimilars id tvdb false = Except.ok ("GET", "/shows/similars", [("id", toString id)]) ∧
    ShowsCharacters id tvdb = Except.ok ("GET", "/shows/characters", [("id", toString id)]) := by
  refine ⟨?_, ?_, ?_⟩
  · simp [ShowsVideos, h1, h2]
  · simp [ShowsSimilars, h1, vset]
  · simp [ShowsCharacters, h1, vset]

/-- C4 witness: the scenario `ShowsVideos(5, 5)` and its `ShowsSimilars`
counterpart. -/
theorem both_ids_exclusivity_witness :
    ShowsVideos 5 5 = Except.error BsError.errNoSingleIDUsed ∧
    ShowsSimilars 5 5 false = Except.ok ("GET", "/shows/similars", [("id", "5")]) ∧
    ShowsCharacters 5 5 = Except.ok ("GET", "/shows/characters", [("id", "5")]) :=
  both_ids_exclusivity 5 5 (by decide) (by decide)

/-- C5: `ShowNote` rejects every note outside [1,5] with the "invalid note"
error before building any request; whenever it builds a request the note was
in range and the emitted query's `note` parameter equals the input; and with
a valid show ID every in-range note does build the request. -/
theorem showNote_range_validation (bsID theTvdbID note : Int) :
    (note < 1 ∨ note > 5 → ShowNote bsID theTvdbID note = Except.error BsError.errInvalidNote) ∧
    (∀ m p q, ShowNote bsID theTvdbID note = Except.ok (m, p, q) →
      1 ≤ note ∧ note ≤ 5 ∧ vget q "note" = some (toString note)) ∧
    (1 ≤ note → note ≤ 5 → 0 < bsID → ShowNote bsID theTvdbID note =
      Except.ok ("POST", "/shows/note", [("id", toString bsID), ("note", toString note)])) := by
  refine ⟨?_, ?_, ?_⟩
  · intro h
    simp [ShowNote, h]
  · intro m p q heq
    by_cases h : note < 1 ∨ note > 5
    · simp [ShowNote, h] at heq
    · refine ⟨by omega, by omega, ?_⟩
      simp [ShowNote, h] at heq
      have hn : (0 : Int) < note := by omega
      by_cases hb : (0 : Int) < bsID
      · simp [showUpdate, hb, optionParams, hn] at heq
        obtain ⟨-, -, hq⟩ := heq
        subst hq
        simp [vset, vget]
      · by_cases ht : (0 : Int) < theTvdbID
        · simp [showUpdate, hb, ht, optionParams, hn] at heq
          obtain ⟨-, -, hq⟩ := heq
          subst hq
          simp [vset, vget]
        · simp [showUpdate, hb, ht] at heq
  · intro h1 h2 hb
    have h : ¬ (note < 1 ∨ note > 5) := by omega
    have hn : (0 : Int) < note := by omega
    simp [ShowNote, h, showUpdate, hb, optionParams, hn, vset]

/-- C5 witness: out-of-range note 9 fails locally; in-range note 3 with show
ID 2 emits `note=3`. -/
theorem showNote_range_validation_witness :
    ShowNote 1 0 9 = Except.error BsError.errInvalidNote ∧
    (1 ≤ (3 : Int) ∧ (3 : Int) ≤ 5 ∧ vget [("id", "2"), ("note", "3")] "note" = some "3") ∧
    ShowNote 2 0 3 = Except.ok ("POST", "/shows/note", [("id", "2"), ("note", "3")]) := by
  refine ⟨?_, ?_, ?_⟩
  · exact (showNote_range_validation 1 0 9).1 (by decide)
  · exact (showNote_range_validation 2 0 3).2.1 "POST" "/shows/note" [("id", "2"), ("note", "3")] rfl
  · exact (showNote_range_validation 2 0 3).2.2 (by decide) (by decide) (by decide)

/-- C6 counterexample: an empty similars collection fails with
`errNoShowsFound` — the very error the shows listings use — so the
"nothing found" error is not distinct per collection kind for similars. -/
theorem similars_empty_shared_error_counterexample :
    doGetSimilarsPost { Similars := [], Errors := [] } = Except.error BsError.errNoShowsFound ∧
    doGetShowsPost { Shows := [], Errors := [] } = Except.error BsError.errNoShowsFound :=
  ⟨rfl, rfl⟩

/-- C6 (amended): with no service errors and an empty target collection,
shows, characters, videos and episodes each fail with their own distinct
"nothing found" error, while similars shares the shows error
`errNoShowsFound` instead of having one of its own. -/
theorem empty_collection_errors (e1 e2 e3 e4 : List Json) :
    doGetShowsPost { Shows := [], Errors := e1 } = Except.error BsError.errNoShowsFound ∧
    showsCharactersPost { Characters := [] } = Except.error BsError.errNoCharactersFound ∧
    showsVideosPost { Videos := [], Errors := e2 } = Except.error BsError.errNoVideosFound ∧
    doGetEpisodesPost { Episodes := [], Errors := e3 } = Except.error BsError.errNoEpisodesFound ∧
    doGetSimilarsPost { Similars := [], Errors := e4 } = Except.error BsError.errNoShowsFound :=
  ⟨rfl, rfl, rfl, rfl, rfl⟩

/-- C7 counterexample: `ShowsRandom(0, false)` emits `nb=0` — a
non-positive numeric option that is not the `released` filter is still added
to the query, because the source guard is `num >= 0`. -/
theorem showsRandom_zero_counterexample :
    ShowsRandom 0 false = ("GET", "/shows/random", [("nb", "0")]) ∧
    vget (ShowsRandom 0 false).2.2 "nb" = some "0" :=
  ⟨rfl, rfl⟩

/-- C7 (amended): numeric options are added to the query only when strictly
positive, except those whose source guard is `>= 0` and which therefore also
accept zero: the `released` filter, `ShowsRandom`'s `nb`, and the `showId`
and `userId` of the part_001 `EpisodesList` variant; negative values omit
the parameter. -/
theorem numeric_option_guards (num uid limit released sid2 uid2 : Int) (s : Bool) :
    (num < 0 → vget (ShowsRandom num s).2.2 "nb" = none) ∧
    (0 ≤ num → vget (ShowsRandom num s).2.2 "nb" = some (toString num)) ∧
    (limit ≤ 0 → vget (EpisodesList 0 0 "" 0 limit (-1) false false).2.2 "limit" = none) ∧
    (0 < limit → vget (EpisodesList 0 0 "" 0 limit (-1) false false).2.2 "limit" = some (toString limit)) ∧
    (released < 0 → vget (EpisodesList 0 0 "" 0 0 released false false).2.2 "released" = none) ∧
    (0 ≤ released → vget (EpisodesList 0 0 "" 0 0 released false false).2.2 "released" = some (toString released)) ∧
    (uid ≤ 0 → vget (EpisodesList 0 0 "" uid 0 (-1) false false).2.2 "userId" = none) ∧
    (0 < uid → vget (EpisodesList 0 0 "" uid 0 (-1) false false).2.2 "userId" = some (toString uid)) ∧
    (sid2 < 0 → vget (EpisodesListAlt sid2 (-1)).2.2 "showId" = none) ∧
    (0 ≤ sid2 → vget (EpisodesListAlt sid2 (-1)).2.2 "showId" = some (toString sid2)) ∧
    (uid2 < 0 → vget (EpisodesListAlt (-1) uid2).2.2 "userId" = none) ∧
    (0 ≤ uid2 → vget (EpisodesListAlt (-1) uid2).2.2 "userId" = some (toString uid2)) := by
  refine ⟨?_, ?_, ?_, ?_, ?_, ?_, ?_, ?_, ?_, ?_, ?_, ?_⟩
  · intro h
    have h' : ¬ (0 : Int) ≤ num := by omega
    by_cases hs : s <;> simp [ShowsRandom, h', hs, vset, vget]
  · intro h
    by_cases hs : s <;> simp [ShowsRandom, h, hs, vset, vget]
  · intro h
    have h' : ¬ (0 : Int) < limit := by omega
    simp [EpisodesList, h', vset, vget]
  · intro h
    simp [EpisodesList, h, vset, vget]
  · intro h
    have h' : ¬ (0 : Int) ≤ released := by omega
    simp [EpisodesList, h', vset, vget]
  · intro h
    simp [EpisodesList, h, vset, vget]
  · intro h
    have h' : ¬ (0 : Int) < uid := by omega
    simp [EpisodesList, h', vset, vget]
  · intro h
    simp [EpisodesList, h, vset, vget]
  · intro h
    have h' : ¬ (0 : Int) ≤ sid2 := by omega
    simp [EpisodesListAlt, h', vset, vget]
  · intro h
    simp [EpisodesListAlt, h, vset, vget]
  · intro h
    have h' : ¬ (0 : Int) ≤ uid2 := by omega
    simp [EpisodesListAlt, h', vset, vget]
  · intro h
    simp [EpisodesListAlt, h, vset, vget]

/-- C7 witness: concrete guard evaluations — a negative `nb` is omitted,
zero `nb` and zero `released` are emitted, a zero `limit` is omitted. -/
theorem numeric_option_guards_witness :
    vget (ShowsRandom (-2) false).2.2 "nb" = none ∧
    vget (ShowsRandom 0 false).2.2 "nb" = some "0" ∧
    vget (EpisodesList 0 0 "" 0 0 (-1) false false).2.2 "limit" = none ∧
    vget (EpisodesList 0 0 "" 0 3 (-1) false false).2.2 "limit" = some "3" ∧
    vget (EpisodesList 0 0 "" 0 0 (-1) false false).2.2 "released" = none ∧
    vget (EpisodesList 0 0 "" 0 0 0 false false).2.2 "released" = some "0" ∧
    vget (EpisodesListAlt (-1) (-1)).2.2 "showId" = none ∧
    vget (EpisodesListAlt 0 (-1)).2.2 "showId" = some "0" := by
  refine ⟨?_, ?_, ?_, ?_, ?_, ?_, ?_, ?_⟩
  · exact (numeric_option_guards (-2) 0 0 0 0 0 false).1 (by decide)
  · exact (numeric_option_guards 0 0 0 0 0 0 false).2.1 (by decide)
  · exact (numeric_option_guards 0 0 0 0 0 0 false).2.2.1 (by decide)
  · exact (numeric_option_guards 0 0 3 0 0 0 false).2.2.2.1 (by decide)
  · exact (numeric_option_guards 0 0 0 (-1) 0 0 false).2.2.2.2.1 (by decide)
  · exact (numeric_option_guards 0 0 0 0 0 0 false).2.2.2.2.2.1 (by decide)
  · exact (numeric_option_guards 0 0 0 0 (-1) 0 false).2.2.2.2.2.2.2.2.1 (by decide)
  · exact (numeric_option_guards 0 0 0 0 0 0 false).2.2.2.2.2.2.2.2.2.1 (by decide)

/-- C3 counterexample: `ShowsVideos` breaks the claimed uniform policy at
two concrete inputs — `ShowsVideos(0, 7)` emits its external-ID parameter
under the name `"thetvdb_id "` (trailing space), so the query holds no
`thetvdb_id` parameter; and `ShowsVideos(5, 5)`, whose local ID is positive,
fails instead of emitting the local ID. -/
theorem showsVideos_policy_counterexample :
    ShowsVideos 0 7 = Except.ok ("GET", "/shows/videos", [("thetvdb_id ", "7")]) ∧
    vget [("thetvdb_id ", "7")] "thetvdb_id" = none ∧
    ShowsVideos 5 5 = Except.error BsError.errNoSingleIDUsed :=
  ⟨rfl, rfl, rfl⟩

/-- C3 (amended): the identifier-resolution policy.  For `showUpdate` (and
the endpoints built on it), `ShowsSimilars`, `ShowsCharacters` and
`ShowsEpisodes`: a positive local ID is emitted as `id` with no external-ID
parameter; else a positive external ID is emitted as `thetvdb_id` with no
`id` parameter; else (`showUpdate` only) a non-empty IMDB string ID is used;
otherwise the call fails with `id not properly set` before any request.
`ShowsVideos` follows the same order only when at most one identifier is
positive, and spells its external-ID parameter `"thetvdb_id "`, with a
trailing space. -/
theorem id_resolution_policy (method ep imdb : String) (id tvdb opt season episode : Int)
    (d subt : Bool) :
    (id ≤ 0 → tvdb ≤ 0 → imdb = "" →
      showUpdate method ep id tvdb imdb opt = Except.error BsError.errIDNotProperlySet ∧
      ShowsSimilars id tvdb d = Except.error BsError.errIDNotProperlySet ∧
      ShowsCharacters id tvdb = Except.error BsError.errIDNotProperlySet ∧
      ShowsEpisodes id tvdb season episode subt = Except.error BsError.errIDNotProperlySet ∧
      ShowsVideos id tvdb = Except.error BsError.errIDNotProperlySet) ∧
    (∀ m p q, showUpdate method ep id tvdb imdb opt = Except.ok (m, p, q) →
      (0 < id → vget q "id" = some (toString id) ∧ vget q "thetvdb_id" = none ∧
        vget q "imdb_id" = none) ∧
      (id ≤ 0 → 0 < tvdb → vget q "thetvdb_id" = some (toString tvdb) ∧ vget q "id" = none ∧
        vget q "imdb_id" = none) ∧
      (id ≤ 0 → tvdb ≤ 0 → vget q "imdb_id" = some imdb ∧ vget q "id" = none ∧
        vget q "thetvdb_id" = none)) ∧
    (∀ m p q, ShowsSimilars id tvdb d = Except.ok (m, p, q) →
      (0 < id → vget q "id" = some (toString id) ∧ vget q "thetvdb_id" = none) ∧
      (id ≤ 0 → vget q "thetvdb_id" = some (toString tvdb) ∧ vget q "id" = none)) ∧
    (∀ m p q, ShowsCharacters id tvdb = Except.ok (m, p, q) →
      (0 < id → vget q "id" = some (toString id) ∧ vget q "thetvdb_id" = none) ∧
      (id ≤ 0 → vget q "thetvdb_id" = some (toString tvdb) ∧ vget q "id" = none)) ∧
    (∀ m p q, ShowsEpisodes id tvdb season episode subt = Except.ok (m, p, q) →
      (0 < id → vget q "id" = some (toString id) ∧ vget q "thetvdb_id" = none) ∧
      (id ≤ 0 → vget q "thetvdb_id" = some (toString tvdb) ∧ vget q "id" = none)) ∧
    (¬(0 < id ∧ 0 < tvdb) →
      (0 < id → ShowsVideos id tvdb = Except.ok ("GET", "/shows/videos", [("id", toString id)])) ∧
      (id ≤ 0 → 0 < tvdb → ShowsVideos id tvdb =
        Except.ok ("GET", "/shows/videos", [("thetvdb_id ", toString tvdb)]))) := by
  refine ⟨?_, ?_, ?_, ?_, ?_, ?_⟩
  · intro hid htv him
    have h1 : ¬ (0 : Int) < id := by omega
    have h2 : ¬ (0 : Int) < tvdb := by omega
    refine ⟨?_, ?_, ?_, ?_, ?_⟩ <;>
      simp [showUpdate, ShowsSimilars, ShowsCharacters, ShowsEpisodes, ShowsVideos, h1, h2, him]
  · intro m p q heq
    refine ⟨?_, ?_, ?_⟩
    · intro h1
      simp [showUpdate, h1] at heq
      obtain ⟨-, -, hq⟩ := heq
      subst hq
      refine ⟨?_, ?_, ?_⟩ <;> simp [vget_optionParams_of_ne, vset, vget]
    · intro hle h2
      have h1 : ¬ (0 : Int) < id := by omega
      simp [showUpdate, h1, h2] at heq
      obtain ⟨-, -, hq⟩ := heq
      subst hq
      refine ⟨?_, ?_, ?_⟩ <;> simp [vget_optionParams_of_ne, vset, vget]
    · intro hle hle2
      have h1 : ¬ (0 : Int) < id := by omega
      have h2 : ¬ (0 : Int) < tvdb := by omega
      simp [showUpdate, h1, h2] at heq
      by_cases him : imdb = ""
      · simp [him] at heq
      · simp [him] at heq
        obtain ⟨-, -, hq⟩ := heq
        subst hq
        refine ⟨?_, ?_, ?_⟩ <;> simp [vget_optionParams_of_ne, vset, vget]
  · intro m p q heq
    constructor
    · intro h1
      simp [ShowsSimilars, h1] at heq
      obtain ⟨-, -, hq⟩ := heq
      subst hq
      constructor <;> by_cases hd : d <;> simp [hd, vset, vget]
    · intro hle
      have h1 : ¬ (0 : Int) < id := by omega
      by_cases h2 : (0 : Int) < tvdb
      · simp [ShowsSimilars, h1, h2] at heq
        obtain ⟨-, -, hq⟩ := heq
        subst hq
        constructor <;> by_cases hd : d <;> simp [hd, vset, vget]
      · simp [ShowsSimilars, h1, h2] at heq
  · intro m p q heq
    constructor
    · intro h1
      simp [ShowsCharacters, h1] at heq
      obtain ⟨-, -, hq⟩ := heq
      subst hq
      constructor <;> simp [vset, vget]
    · intro hle
      have h1 : ¬ (0 : Int) < id := by omega
      by_cases h2 : (0 : Int) < tvdb
      · simp [ShowsCharacters, h1, h2] at heq
        obtain ⟨-, -, hq⟩ := heq
        subst hq
        constructor <;> simp [vset, vget]
      · simp [ShowsCharacters, h1, h2] at heq
  · intro m p q heq
    constructor
    · intro h1
      simp [ShowsEpisodes, h1] at heq
      obtain ⟨-, -, hq⟩ := heq
      subst hq
      constructor <;>
        by_cases hs : (0 : Int) < season <;> by_cases he : (0 : Int) < episode <;>
          by_cases hb : subt <;> simp [hs, he, hb, vset, vget]
    · intro hle
      have h1 : ¬ (0 : Int) < id := by omega
      by_cases h2 : (0 : Int) < tvdb
      · simp [ShowsEpisodes, h1, h2] at heq
        obtain ⟨-, -, hq⟩ := heq
        subst hq
        constructor <;>
          by_cases hs : (0 : Int) < season <;> by_cases he : (0 : Int) < episode <;>
            by_cases hb : subt <;> simp [hs, he, hb, vset, vget]
      · simp [ShowsEpisodes, h1, h2] at heq
  · intro hno
    constructor
    · intro h1
      have h2 : ¬ (0 : Int) < tvdb := fun h => hno ⟨h1, h⟩
      simp [ShowsVideos, h1, h2, vset]
    · intro hle h2
      have h1 : ¬ (0 : Int) < id := by omega
      simp [ShowsVideos, hno, h1, h2, vset]

/-- C3 witness: concrete instances of the policy — no identifiers fails
locally, an external-only `showUpdate` emits `thetvdb_id` and nothing else,
a local-only `ShowsVideos` emits `id`. -/
theorem id_resolution_policy_witness :
    ShowsVideos 0 0 = Except.error BsError.errIDNotProperlySet ∧
    (vget [("thetvdb_id", "9")] "thetvdb_id" = some "9" ∧
      vget [("thetvdb_id", "9")] "id" = none ∧ vget [("thetvdb_id", "9")] "imdb_id" = none) ∧
    ShowsVideos 7 0 = Except.ok ("GET", "/shows/videos", [("id", "7")]) := by
  refine ⟨?_, ?_, ?_⟩
  · exact ((id_resolution_policy "GET" "display" "" 0 0 0 0 0 false false).1
      (by decide) (by decide) rfl).2.2.2.2
  · exact ((id_resolution_policy "GET" "display" "" 0 9 0 0 0 false false).2.1
      "GET" "/shows/display" [("thetvdb_id", "9")] rfl).2.1 (by decide) (by decide)
  · exact ((id_resolution_policy "GET" "display" "" 7 0 0 0 0 false false).2.2.2.2.2
      (by decide)).1 (by decide)
